import Mathlib

/-!
Verification of the InsForge VS Code extension's MCP installation core:
the installer runner, the verification poller, the chat opener and the
orchestrating `installMcp` command, shallowly embedded from
`src/commands/installMcp.ts` and `src/utils/chatOpener.ts`.

Asynchronous behaviour is embedded by making each component a pure
function from an explicit environment (the outcomes of the external
calls it performs) to a result together with a trace of its observable
effects, in the order the single-threaded event loop performs them.
-/

namespace InsForge

/-- Result of running the installer (`InstallerResult` in
`src/utils/terminalOutput.ts`): success flag, nullable exit code,
captured stdout/stderr and an optional error message. -/
structure InstallerResult where
  success : Bool
  exitCode : Option Int
  stdout : String
  stderr : String
  error : Option String
deriving Repr, DecidableEq

/-- Events delivered to the promise executor of `runInstaller`
(`src/commands/installMcp.ts`): stdout/stderr data chunks, the
process `error` event, the process `close` event (nullable code), and
the cancellation token firing.  The list order is the order in which
the single-threaded event loop delivers them. -/
inductive ProcEvent where
  | stdoutData (s : String)
  | stderrData (s : String)
  | errored (msg : String)
  | closed (code : Option Int)
  | cancelled
deriving Repr, DecidableEq

/-- State of one `runInstaller` promise executor: the two accumulating
buffers, every call made to `resolve` (a JS promise keeps only the
first), and whether `installerProcess.kill()` was invoked. -/
structure RunnerState where
  stdout : String
  stderr : String
  resolveCalls : List InstallerResult
  killed : Bool
deriving Repr, DecidableEq

/-- One event-handler step of `runInstaller`: `data` handlers append to
the buffers, the `error` handler resolves a spawn failure, the `close`
handler resolves `success = (code === 0)`, and the cancellation handler
kills the process and resolves the fixed cancellation outcome. -/
def stepRunner (st : RunnerState) (e : ProcEvent) : RunnerState :=
  match e with
  | .stdoutData s => { st with stdout := st.stdout ++ s }
  | .stderrData s => { st with stderr := st.stderr ++ s }
  | .errored msg =>
      { st with resolveCalls := st.resolveCalls ++
          [⟨false, none, st.stdout, st.stderr, some msg⟩] }
  | .closed code =>
      { st with resolveCalls := st.resolveCalls ++
          [⟨code == some 0, code, st.stdout, st.stderr, none⟩] }
  | .cancelled =>
      { st with killed := true
                resolveCalls := st.resolveCalls ++
                  [⟨false, none, st.stdout, st.stderr, some "Installation cancelled"⟩] }

/-- Initial executor state. -/
def initRunner : RunnerState := ⟨"", "", [], false⟩

/-- Final state after the event loop delivers `events`. -/
def runnerFinal (events : List ProcEvent) : RunnerState :=
  events.foldl stepRunner initRunner

/-- The value the `runInstaller` promise settles to: the first call to
`resolve` wins (JS promise semantics); `none` means the promise never
resolves. -/
def runInstaller (events : List ProcEvent) : Option InstallerResult :=
  (runnerFinal events).resolveCalls.head?

/-! ## Chat opener (`src/utils/chatOpener.ts`) -/

/-- Welcome prompt sent to the AI chat after MCP installation
(`INSFORGE_WELCOME_PROMPT`). -/
def INSFORGE_WELCOME_PROMPT : String :=
  "I'm using InsForge as my backend platform, call InsForge MCP's fetch-docs tool to learn about InsForge instructions."

/-- The `paramFormat` field of a chat command configuration:
`'object' | 'clipboard' | 'terminal'`. -/
inductive ParamFormat where
  | object
  | clipboard
  | terminal
deriving Repr, DecidableEq

/-- `ChatCommandConfig`: per-client chat command configuration.  All
fields are optional, exactly as in the TypeScript interface. -/
structure ChatCommandConfig where
  paramFormat : Option ParamFormat
  command : Option String
  terminalCommand : Option String
  pasteDelayMs : Option Nat
  skipCommandIfContext : Option String
deriving Repr, DecidableEq

/-- Default delay before pasting for the clipboard method
(`DEFAULT_PASTE_DELAY_MS = 150`). -/
def DEFAULT_PASTE_DELAY_MS : Nat := 150

/-- The `CHAT_COMMANDS` record: chat command configurations for all
supported IDEs, looked up by client id; `none` for an unknown id. -/
def CHAT_COMMANDS (clientId : String) : Option ChatCommandConfig :=
  if clientId = "cursor" then
    some ⟨some .object, some "workbench.action.chat.open", none, none, none⟩
  else if clientId = "copilot" then
    some ⟨some .object, some "workbench.action.chat.open", none, none, none⟩
  else if clientId = "trae" then
    some ⟨some .clipboard, some "workbench.action.chat.icube.open", none, none, none⟩
  else if clientId = "qoder" then
    some ⟨some .clipboard, some "workbench.action.aichat.open", none, none, some "inChat"⟩
  else if clientId = "antigravity" then
    some ⟨some .clipboard, some "antigravity.prioritized.chat.open", none, none, none⟩
  else if clientId = "windsurf" then
    some ⟨some .clipboard, some "windsurf.prioritized.chat.openNewConversation", none, none, none⟩
  else if clientId = "kiro" then
    some ⟨some .clipboard, some "kiroAgent.focusContinueInput", none, some 1000, none⟩
  else if clientId = "claude-code" then
    some ⟨some .terminal, none, some "claude", none, none⟩
  else if clientId = "codex" then
    some ⟨some .terminal, none, some "codex", none, none⟩
  else if clientId = "cline" then
    some ⟨none, none, none, none, none⟩
  else if clientId = "roocode" then
    some ⟨none, none, none, none, none⟩
  else
    none

/-- The method component of a `ChatOpenResult`:
`'command' | 'clipboard' | 'terminal' | 'none'`. -/
inductive ChatMethod where
  | command
  | clipboard
  | terminal
  | none
deriving Repr, DecidableEq

/-- `ChatOpenResult`: success flag, method actually used, optional
error string. -/
structure ChatOpenResult where
  success : Bool
  method : ChatMethod
  error : Option String
deriving Repr, DecidableEq

/-- Observable side effects of the chat opener, in event-loop order:
clipboard write, host command invocations (with or without the
structured `query` payload), context-key probe, user notification,
timer wait, the generic paste command, and terminal operations. -/
inductive ChatEffect where
  | clipboardWrite (text : String)
  | execCommandObject (cmd : String) (query : String)
  | execCommand (cmd : String)
  | getContext (key : String)
  | notify (msg : String)
  | wait (ms : Nat)
  | pasteCmd
  | createTerminal (name : String)
  | terminalShow
  | terminalSend (line : String)
deriving Repr, DecidableEq

/-- Environment for one chat-opening attempt: the outcomes of the
external host calls the opener performs.  `contextValue` is the value
the unofficial `getContext` command yields (`none` both for undefined
and for the probe itself throwing, which `getContextValue` swallows). -/
structure ChatEnv where
  clipboardWriteOk : Bool
  clipboardWriteErr : String
  contextValue : Option Bool
  openCmdOk : Bool
  pasteOk : Bool
  objectCmdOk : Bool
  objectCmdErr : String
deriving Repr, DecidableEq

/-- Notification shown when the open-chat command fails after the
clipboard write succeeded. -/
def openNotifyMsg : String :=
  "Prompt copied to clipboard. Please open the AI chat and paste it."

/-- Notification shown when the paste command fails after the
clipboard write succeeded. -/
def pasteNotifyMsg : String :=
  "Prompt copied to clipboard. Please paste it into the chat input."

/-- Whether step 3 of the clipboard flow skips the open-chat command:
a `skipCommandIfContext` key is configured and the probed context value
is `true`. -/
def shouldSkipOpen (skipCtx : Option String) (env : ChatEnv) : Bool :=
  match skipCtx with
  | none => false
  | some _ => env.contextValue == some true

/-- Steps 4–5 of the clipboard flow: wait `delay` ms, invoke the paste
command; a paste failure is downgraded to the same degraded success
plus a manual-paste notification. -/
def pastePhase (delay : Nat) (env : ChatEnv) : ChatOpenResult × List ChatEffect :=
  if env.pasteOk then
    (⟨true, .clipboard, none⟩, [.wait delay, .pasteCmd])
  else
    (⟨true, .clipboard, none⟩, [.wait delay, .pasteCmd, .notify pasteNotifyMsg])

/-- `openChatWithClipboardPaste`: copy prompt to clipboard, optionally
probe the context key, try the open-chat command (a failure there stops
with degraded success), wait, paste.  A clipboard-write failure is the
sole escaping exception (`Except.error`). -/
def openChatWithClipboardPaste (command prompt : String) (delayMs : Option Nat)
    (skipCtx : Option String) (env : ChatEnv) :
    Except String ChatOpenResult × List ChatEffect :=
  let pasteDelay := delayMs.getD DEFAULT_PASTE_DELAY_MS
  if env.clipboardWriteOk then
    let tr1 : List ChatEffect := [.clipboardWrite prompt]
    let tr2 : List ChatEffect :=
      match skipCtx with
      | none => []
      | some key => [.getContext key]
    if shouldSkipOpen skipCtx env then
      let pr := pastePhase 50 env
      (.ok pr.1, tr1 ++ tr2 ++ pr.2)
    else if env.openCmdOk then
      let pr := pastePhase pasteDelay env
      (.ok pr.1, tr1 ++ tr2 ++ [.execCommand command] ++ pr.2)
    else
      (.ok ⟨true, .clipboard, none⟩,
       tr1 ++ tr2 ++ [.execCommand command, .notify openNotifyMsg])
  else
    (.error env.clipboardWriteErr, [])

/-- `prompt.replace(/"/g, '\\"')`: escape every double quote for shell
safety, character by character. -/
def escapeQuotes : List Char → List Char
  | [] => []
  | c :: rest =>
      if c = '"' then '\\' :: '"' :: escapeQuotes rest
      else c :: escapeQuotes rest

/-- String form of `escapeQuotes`. -/
def escapeQuotesStr (s : String) : String := String.mk (escapeQuotes s.data)

/-- `openChatWithTerminal`: build `{command} "{escaped prompt}"`, reuse
the caller's terminal or create a fresh one, show it and send the
command line; always a `terminal`-method success. -/
def openChatWithTerminal (terminalCommand prompt : String)
    (existingTerminal : Bool) : Except String ChatOpenResult × List ChatEffect :=
  let fullCommand := terminalCommand ++ " \"" ++ escapeQuotesStr prompt ++ "\""
  let trTerm : List ChatEffect :=
    if existingTerminal then []
    else [.createTerminal ("InsForge - " ++ terminalCommand)]
  (.ok ⟨true, .terminal, none⟩, trTerm ++ [.terminalShow, .terminalSend fullCommand])

/-- The strategy dispatch inside the `try` block of
`tryOpenChatWithPrompt`: `Except.error` is an exception escaping to the
outer `catch`. -/
def dispatchChat (config : ChatCommandConfig) (prompt : String)
    (existingTerminal : Bool) (env : ChatEnv) :
    Except String ChatOpenResult × List ChatEffect :=
  match config.paramFormat with
  | none => (.ok ⟨true, .none, none⟩, [])
  | some .object =>
      if env.objectCmdOk then
        (.ok ⟨true, .command, none⟩,
         [.execCommandObject (config.command.getD "") prompt])
      else
        (.error env.objectCmdErr,
         [.execCommandObject (config.command.getD "") prompt])
  | some .clipboard =>
      openChatWithClipboardPaste (config.command.getD "") prompt
        config.pasteDelayMs config.skipCommandIfContext env
  | some .terminal =>
      openChatWithTerminal (config.terminalCommand.getD "") prompt existingTerminal

/-- `tryOpenChatWithPrompt`: look up the client configuration, silently
skip when there is none or it has no `paramFormat`, otherwise dispatch
by strategy; any escaping exception is caught and converted to
`{success:false, method:'none', error:String(error)}`. -/
def tryOpenChatWithPrompt (clientId prompt : String) (existingTerminal : Bool)
    (env : ChatEnv) : ChatOpenResult × List ChatEffect :=
  match CHAT_COMMANDS clientId with
  | none => (⟨true, .none, none⟩, [])
  | some config =>
    match config.paramFormat with
    | none => (⟨true, .none, none⟩, [])
    | some _ =>
      match dispatchChat config prompt existingTerminal env with
      | (.ok r, tr) => (r, tr)
      | (.error e, tr) => (⟨false, .none, some e⟩, tr)

/-- `usesTerminalChat`: whether a client uses terminal-based chat. -/
def usesTerminalChat (clientId : String) : Bool :=
  match CHAT_COMMANDS clientId with
  | some cfg =>
      match cfg.paramFormat with
      | some .terminal => true
      | _ => false
  | none => false

/-- The clipboard contents after a trace of chat effects: the last
write, if any (the opener never clears the clipboard). -/
def clipboardAfter (tr : List ChatEffect) : Option String :=
  (tr.filterMap fun e =>
    match e with
    | .clipboardWrite s => some s
    | _ => none).getLast?

/-! ## Verification poller (`verifyMcpInstallation`) -/

/-- Outcome of one attempt to contact the server and list its tools:
either a (possibly empty) tool list or an error description. -/
inductive AttemptOutcome where
  | success (tools : List String)
  | failure (error : String)
deriving Repr, DecidableEq

/-- Whether one attempt counts as failed: a network/server error, or a
success whose tool list is empty. -/
def attemptFails : AttemptOutcome → Bool
  | .success tools => tools.isEmpty
  | .failure _ => true

/-- The error description an attempt contributes as "last error". -/
def attemptErr : AttemptOutcome → String
  | .success _ => "No tools returned"
  | .failure e => e

/-- `MCP_VERIFY_MAX_ATTEMPTS` (`src/commands/installMcp.ts`). -/
def MCP_VERIFY_MAX_ATTEMPTS : Nat := 3

/-- `MCP_VERIFY_DELAY_MS` (`src/commands/installMcp.ts`). -/
def MCP_VERIFY_DELAY_MS : Nat := 2000

/-- Observable events of one poll cycle, in order: the start-of-cycle
progress hook, each attempt, each fixed-delay wait, and the terminal
`onVerified`/`onFailed` callback. -/
inductive VerifyEvent where
  | verifying
  | attempt (n : Nat)
  | wait (ms : Nat)
  | verified (tools : List String)
  | failed (error : String)
deriving Repr, DecidableEq

/-- Modelled from the spec: the retry loop of `verifyMcpInstallation`
(`src/utils/mcpVerifier.ts`, not present under `src/`).  `i` is the
1-based index of the current attempt and `rem` the number of attempts
remaining after it.  A non-empty tool list stops the loop with
`onVerified`; otherwise the loop waits `MCP_VERIFY_DELAY_MS` and
retries, and after the final failed attempt invokes `onFailed` with the
last error. -/
def runAttempts (backend : Nat → AttemptOutcome) : Nat → Nat → List VerifyEvent
  | i, 0 =>
    match backend i with
    | .success tools =>
        if tools.isEmpty then
          [VerifyEvent.attempt i, VerifyEvent.failed (attemptErr (backend i))]
        else
          [VerifyEvent.attempt i, VerifyEvent.verified tools]
    | .failure e => [VerifyEvent.attempt i, VerifyEvent.failed e]
  | i, rem + 1 =>
    match backend i with
    | .success tools =>
        if tools.isEmpty then
          VerifyEvent.attempt i :: VerifyEvent.wait MCP_VERIFY_DELAY_MS ::
            runAttempts backend (i + 1) rem
        else
          [VerifyEvent.attempt i, VerifyEvent.verified tools]
    | .failure _ =>
        VerifyEvent.attempt i :: VerifyEvent.wait MCP_VERIFY_DELAY_MS ::
          runAttempts backend (i + 1) rem

/-- Modelled from the spec: `verifyMcpInstallation`
(`src/utils/mcpVerifier.ts`, not present under `src/`) — invoke the
`onVerifying` progress hook once, then run up to
`MCP_VERIFY_MAX_ATTEMPTS` attempts against the backend. -/
def verifyMcpInstallation (backend : Nat → AttemptOutcome) : List VerifyEvent :=
  VerifyEvent.verifying :: runAttempts backend 1 (MCP_VERIFY_MAX_ATTEMPTS - 1)

/-! ## Orchestrator (`installMcp`, `src/commands/installMcp.ts`) -/

/-- One entry of the `MCP_CLIENTS` table. -/
structure McpClient where
  id : String
  label : String
  description : String
  projectLocal : Bool
  icon : String
deriving Repr, DecidableEq

/-- The `MCP_CLIENTS` table of supported clients. -/
def MCP_CLIENTS : List McpClient :=
  [⟨"cursor", "Cursor", "Cursor IDE (~/.cursor/mcp.json)", false, "cursor"⟩,
   ⟨"claude-code", "Claude Code", "Project-local (.mcp.json in workspace)", true, "claude_code"⟩,
   ⟨"antigravity", "Google Antigravity", "Google Antigravity (~/.gemini/antigravity/mcp_config.json)", false, "antigravity"⟩,
   ⟨"windsurf", "Windsurf", "Windsurf IDE (~/.codeium/windsurf/mcp_config.json)", false, "windsurf"⟩,
   ⟨"cline", "Cline", "Cline VS Code Extension (VS Code globalStorage)", false, "cline"⟩,
   ⟨"roocode", "Roo Code", "Roo-Code VS Code Extension (VS Code globalStorage)", false, "roo_code"⟩,
   ⟨"copilot", "GitHub Copilot", "Project-local (.vscode/mcp.json)", true, "copilot"⟩,
   ⟨"codex", "Codex", "OpenAI Codex CLI (managed via codex mcp add)", false, "codex"⟩,
   ⟨"trae", "Trae", "Trae IDE (Trae/User/mcp.json)", false, "trae"⟩,
   ⟨"qoder", "Qoder", "Qoder IDE (Qoder/SharedClientCache/mcp.json)", false, "qoder"⟩,
   ⟨"kiro", "Kiro", "Kiro IDE (~/.kiro/settings/mcp.json)", false, "kiro"⟩]

/-- Environment of one `installMcp` run: the outcomes of every external
interaction it performs, in particular the user's client pick (`none` =
cancelled), the open workspace folders and the user's folder pick for
the multi-folder case, the home directory fallback, the API key lookup,
the awaited installer result, the verification backend behaviour and
the chat-opening environment. -/
structure InstallEnv where
  clientPick : Option McpClient
  workspaceFolders : List String
  folderPick : Option Nat
  homedir : String
  apiKey : Option String
  installerResult : InstallerResult
  backend : Nat → AttemptOutcome
  chatEnv : ChatEnv

/-- Step 2 of `installMcp`: resolve the workspace folder.  The outer
`none` means the run aborts (user cancelled the folder pick); the inner
option is the folder passed to the installer (`none` for clients that
are not project-local). -/
def resolveWorkspace (client : McpClient) (env : InstallEnv) : Option (Option String) :=
  if client.projectLocal then
    match env.workspaceFolders with
    | [] => some (some env.homedir)
    | [w] => some (some w)
    | ws =>
        match env.folderPick with
        | none => none
        | some i => (ws[i]?).map some
  else
    some none

/-- Rendering of a nullable exit code in the failure message
(JS template interpolation prints `null`). -/
def exitCodeText : Option Int → String
  | none => "null"
  | some c => toString c

/-- `installerResult.error || `Installer exited with code ${exitCode}``:
the JS `||` falls through on a missing or empty error string. -/
def installerErrMsg (r : InstallerResult) : String :=
  match r.error with
  | some e =>
      if e = "" then "Installer exited with code " ++ exitCodeText r.exitCode else e
  | none => "Installer exited with code " ++ exitCodeText r.exitCode

/-- Observable events of one `installMcp` run, in order: the
`onInstallationStarting`, `onVerifying`, `onVerified` and `onFailed`
status callbacks, the awaited installer run, the output terminal
creation, the fire-and-forget hand-off to `verifyMcpInstallation`, and
the poller's own attempts/waits plus the chat-opening effects run from
its `onVerified` handler. -/
inductive McpEvent where
  | installationStarting
  | statusVerifying (projectId : String)
  | installerRun
  | terminalCreated
  | verificationScheduled
  | pollAttempt (n : Nat)
  | pollWait (ms : Nat)
  | statusVerified (projectId : String) (tools : List String)
  | statusFailed (projectId : String) (error : String)
  | chat (e : ChatEffect)
deriving Repr, DecidableEq

/-- How the callbacks `installMcp` passes to `verifyMcpInstallation`
surface as run events: the poller's progress hook is not wired to the
status callbacks, `onVerified` marks verified then opens chat, and
`onFailed` marks failed. -/
def verifyEventsToMcp (projectId : String) (chatTrace : List ChatEffect) :
    VerifyEvent → List McpEvent
  | .verifying => []
  | .attempt n => [.pollAttempt n]
  | .wait ms => [.pollWait ms]
  | .verified tools => .statusVerified projectId tools :: chatTrace.map .chat
  | .failed e => [.statusFailed projectId e]

/-- `installMcp`: the full orchestrating command.  Returns the boolean
the promise resolves to, together with the trace of run events.  The
boolean is returned right after a successful installer run; the
verification events (and any chat events from its `onVerified`
handler) happen after that resolution, since `verifyMcpInstallation`
is invoked without `await`. -/
def installMcp (projectId : String) (env : InstallEnv) : Bool × List McpEvent :=
  match env.clientPick with
  | none => (false, [])
  | some client =>
    match resolveWorkspace client env with
    | none => (false, [McpEvent.installationStarting])
    | some _ws =>
      match env.apiKey with
      | none => (false, [McpEvent.installationStarting])
      | some _key =>
        let evPre : List McpEvent :=
          [McpEvent.installationStarting, McpEvent.statusVerifying projectId,
           McpEvent.installerRun, McpEvent.terminalCreated]
        if env.installerResult.success then
          let chatTrace :=
            (tryOpenChatWithPrompt client.id INSFORGE_WELCOME_PROMPT
              (usesTerminalChat client.id) env.chatEnv).2
          (true, evPre ++ [McpEvent.verificationScheduled] ++
            (verifyMcpInstallation env.backend).flatMap
              (verifyEventsToMcp projectId chatTrace))
        else
          (false, evPre ++
            [McpEvent.statusFailed projectId (installerErrMsg env.installerResult)])

/-! ## Runner lemmas -/

/-- Whether an event is a pure output event (no resolution, no kill). -/
def isDataEvent : ProcEvent → Bool
  | .stdoutData _ => true
  | .stderrData _ => true
  | _ => false

lemma foldl_stepRunner_data (pre : List ProcEvent) :
    ∀ st : RunnerState, (∀ e ∈ pre, isDataEvent e = true) →
      (pre.foldl stepRunner st).resolveCalls = st.resolveCalls ∧
      (pre.foldl stepRunner st).killed = st.killed := by
  induction pre with
  | nil => intro st _; exact ⟨rfl, rfl⟩
  | cons e rest ih =>
      intro st h
      have he : isDataEvent e = true := h e (List.mem_cons_self e rest)
      have hrest : ∀ x ∈ rest, isDataEvent x = true :=
        fun x hx => h x (List.mem_cons_of_mem e hx)
      cases e with
      | stdoutData s => exact ih (stepRunner st (.stdoutData s)) hrest
      | stderrData s => exact ih (stepRunner st (.stderrData s)) hrest
      | errored m => simp [isDataEvent] at he
      | closed c => simp [isDataEvent] at he
      | cancelled => simp [isDataEvent] at he

lemma foldl_stepRunner_resolveCalls_mono (evs : List ProcEvent) :
    ∀ st : RunnerState,
      ∃ extra, (evs.foldl stepRunner st).resolveCalls = st.resolveCalls ++ extra := by
  induction evs with
  | nil => intro st; exact ⟨[], (List.append_nil _).symm⟩
  | cons e rest ih =>
      intro st
      obtain ⟨extra, hx⟩ := ih (stepRunner st e)
      cases e with
      | stdoutData s => exact ⟨extra, hx⟩
      | stderrData s => exact ⟨extra, hx⟩
      | errored m =>
          exact ⟨⟨false, none, st.stdout, st.stderr, some m⟩ :: extra,
            by simpa [stepRunner, List.append_assoc] using hx⟩
      | closed c =>
          exact ⟨⟨c == some 0, c, st.stdout, st.stderr, none⟩ :: extra,
            by simpa [stepRunner, List.append_assoc] using hx⟩
      | cancelled =>
          exact ⟨⟨false, none, st.stdout, st.stderr, some "Installation cancelled"⟩ :: extra,
            by simpa [stepRunner, List.append_assoc] using hx⟩

lemma foldl_stepRunner_killed_mono (evs : List ProcEvent) :
    ∀ st : RunnerState, st.killed = true → (evs.foldl stepRunner st).killed = true := by
  induction evs with
  | nil => intro st h; exact h
  | cons e rest ih =>
      intro st h
      cases e <;> exact ih _ (by simp [stepRunner, h])

lemma foldl_stepRunner_head (evs : List ProcEvent) (st : RunnerState)
    (r : InstallerResult) (rs : List InstallerResult)
    (h : st.resolveCalls = r :: rs) :
    (evs.foldl stepRunner st).resolveCalls.head? = some r := by
  obtain ⟨extra, hx⟩ := foldl_stepRunner_resolveCalls_mono evs st
  rw [hx, h]
  rfl

lemma runInstaller_first_resolution (pre post : List ProcEvent) (e : ProcEvent)
    (r : InstallerResult) (rs : List InstallerResult)
    (h : (stepRunner (pre.foldl stepRunner initRunner) e).resolveCalls = r :: rs) :
    runInstaller (pre ++ e :: post) = some r := by
  unfold runInstaller runnerFinal
  rw [List.foldl_append]
  simp only [List.foldl_cons]
  exact foldl_stepRunner_head post _ r rs h

/-- Claim C3: if the cancellation signal fires before the subprocess
exits, `runInstaller` kills the subprocess and resolves with
`success = false`, `exitCode = null`, `error = "Installation cancelled"`,
regardless of output already captured and even if the process would
later exit with code 0 (arbitrary `post`, which may contain
`closed 0`); the resolution the promise keeps is exactly this one. -/
theorem runInstaller_cancellation (pre post : List ProcEvent)
    (hpre : ∀ x ∈ pre, isDataEvent x = true) :
    (∃ so se, runInstaller (pre ++ ProcEvent.cancelled :: post) =
        some ⟨false, none, so, se, some "Installation cancelled"⟩) ∧
    (runnerFinal (pre ++ ProcEvent.cancelled :: post)).killed = true := by
  have h1 := foldl_stepRunner_data pre initRunner hpre
  have h1n : (pre.foldl stepRunner initRunner).resolveCalls = [] := by
    rw [h1.1]; rfl
  constructor
  · refine ⟨(pre.foldl stepRunner initRunner).stdout,
      (pre.foldl stepRunner initRunner).stderr, ?_⟩
    exact runInstaller_first_resolution pre post ProcEvent.cancelled _ []
      (by simp [stepRunner, h1n])
  · unfold runnerFinal
    rw [List.foldl_append]
    simp only [List.foldl_cons]
    exact foldl_stepRunner_killed_mono post _ (by simp [stepRunner])

/-- Claim C3 witness: output already captured, then cancellation, then
a late exit with code 0 — the kept resolution is still the fixed
cancellation outcome and the process was killed. -/
theorem runInstaller_cancellation_witness :
    (∃ so se, runInstaller [ProcEvent.stdoutData "out", ProcEvent.cancelled,
        ProcEvent.closed (some 0)] =
        some ⟨false, none, so, se, some "Installation cancelled"⟩) ∧
    (runnerFinal [ProcEvent.stdoutData "out", ProcEvent.cancelled,
        ProcEvent.closed (some 0)]).killed = true := by
  have h := runInstaller_cancellation [ProcEvent.stdoutData "out"]
    [ProcEvent.closed (some 0)] (by decide)
  simpa using h

/-- Claim C8: a completed subprocess resolves `success = (exitCode == 0)`
— `true` exactly when the code is 0 — and a spawn error resolves
`exitCode = null`, `success = false` with the spawn error message. -/
theorem runInstaller_exit_and_spawn_error (pre post : List ProcEvent)
    (c : Option Int) (m : String)
    (hpre : ∀ x ∈ pre, isDataEvent x = true) :
    (∃ so se, runInstaller (pre ++ ProcEvent.closed c :: post) =
        some ⟨c == some 0, c, so, se, none⟩) ∧
    ((c == some 0) = true ↔ c = some 0) ∧
    (∃ so se, runInstaller (pre ++ ProcEvent.errored m :: post) =
        some ⟨false, none, so, se, some m⟩) := by
  have h1 := foldl_stepRunner_data pre initRunner hpre
  have h1n : (pre.foldl stepRunner initRunner).resolveCalls = [] := by
    rw [h1.1]; rfl
  refine ⟨⟨(pre.foldl stepRunner initRunner).stdout,
      (pre.foldl stepRunner initRunner).stderr, ?_⟩, by simp,
      (pre.foldl stepRunner initRunner).stdout,
      (pre.foldl stepRunner initRunner).stderr, ?_⟩
  · exact runInstaller_first_resolution pre post (ProcEvent.closed c) _ []
      (by simp [stepRunner, h1n])
  · exact runInstaller_first_resolution pre post (ProcEvent.errored m) _ []
      (by simp [stepRunner, h1n])

/-- Claim C8 witness: concrete runs — exit code 0 succeeds, exit code 2
fails, and a spawn error carries its message with a null exit code. -/
theorem runInstaller_exit_and_spawn_error_witness :
    (∃ so se, runInstaller [ProcEvent.stdoutData "log",
        ProcEvent.closed (some 0)] = some ⟨true, some 0, so, se, none⟩) ∧
    (∃ so se, runInstaller [ProcEvent.stdoutData "log",
        ProcEvent.closed (some 2)] = some ⟨false, some 2, so, se, none⟩) ∧
    (∃ so se, runInstaller [ProcEvent.stdoutData "log",
        ProcEvent.errored "spawn npx ENOENT"] =
        some ⟨false, none, so, se, some "spawn npx ENOENT"⟩) := by
  have h0 := runInstaller_exit_and_spawn_error [ProcEvent.stdoutData "log"] []
    (some 0) "spawn npx ENOENT" (by decide)
  have h2 := runInstaller_exit_and_spawn_error [ProcEvent.stdoutData "log"] []
    (some 2) "spawn npx ENOENT" (by decide)
  refine ⟨?_, ?_, ?_⟩
  · simpa using h0.1
  · simpa using h2.1
  · simpa using h0.2.2


/-! ## Poller lemmas -/

lemma runAttempts_fail_step (backend : Nat → AttemptOutcome) (i rem : Nat)
    (h : attemptFails (backend i) = true) :
    runAttempts backend i (rem + 1) =
      VerifyEvent.attempt i :: VerifyEvent.wait MCP_VERIFY_DELAY_MS ::
        runAttempts backend (i + 1) rem := by
  rcases hb : backend i with tools | e
  · rw [hb] at h
    simp only [attemptFails] at h
    simp [runAttempts, hb, h]
  · simp [runAttempts, hb]

lemma runAttempts_fail_last (backend : Nat → AttemptOutcome) (i : Nat)
    (h : attemptFails (backend i) = true) :
    runAttempts backend i 0 =
      [VerifyEvent.attempt i, VerifyEvent.failed (attemptErr (backend i))] := by
  rcases hb : backend i with tools | e
  · rw [hb] at h
    simp only [attemptFails] at h
    simp [runAttempts, hb, h]
  · simp [runAttempts, hb, attemptErr]

lemma runAttempts_success (backend : Nat → AttemptOutcome) (i rem : Nat)
    (tools : List String) (hb : backend i = .success tools) (hne : tools ≠ []) :
    runAttempts backend i rem =
      [VerifyEvent.attempt i, VerifyEvent.verified tools] := by
  cases rem <;> simp [runAttempts, hb, List.isEmpty_iff, hne]

/-- Claim C2: the poller makes at most `MCP_VERIFY_MAX_ATTEMPTS = 3`
attempts with a fixed `MCP_VERIFY_DELAY_MS = 2000` wait between
attempts; the first attempt returning a non-empty tool list invokes
`onVerified(tools)` exactly once with no further attempts, and if all
three attempts fail, `onFailed` is invoked exactly once, after the
final attempt, with the error from the last attempt.  Both conclusions
give the complete event trace, so the exactly-once and nothing-after
clauses are immediate. -/
theorem verifyPoller_retry_policy (backend : Nat → AttemptOutcome) :
    ((∀ i, 1 ≤ i → i ≤ MCP_VERIFY_MAX_ATTEMPTS → attemptFails (backend i) = true) →
      verifyMcpInstallation backend =
        [VerifyEvent.verifying, VerifyEvent.attempt 1, VerifyEvent.wait 2000,
         VerifyEvent.attempt 2, VerifyEvent.wait 2000, VerifyEvent.attempt 3,
         VerifyEvent.failed (attemptErr (backend 3))]) ∧
    (∀ k tools, 1 ≤ k → k ≤ MCP_VERIFY_MAX_ATTEMPTS →
      backend k = .success tools → tools ≠ [] →
      (∀ i, 1 ≤ i → i < k → attemptFails (backend i) = true) →
      verifyMcpInstallation backend =
        VerifyEvent.verifying ::
          ((List.range (k - 1)).flatMap
            (fun j => [VerifyEvent.attempt (j + 1),
                       VerifyEvent.wait MCP_VERIFY_DELAY_MS])) ++
          [VerifyEvent.attempt k, VerifyEvent.verified tools]) := by
  constructor
  · intro hall
    unfold verifyMcpInstallation
    rw [show MCP_VERIFY_MAX_ATTEMPTS - 1 = 1 + 1 from rfl]
    rw [runAttempts_fail_step backend 1 1 (hall 1 (by decide) (by decide))]
    rw [runAttempts_fail_step backend 2 0 (hall 2 (by decide) (by decide))]
    rw [runAttempts_fail_last backend 3 (hall 3 (by decide) (by decide))]
    rfl
  · intro k tools hk1 hk3 hb hne hfail
    unfold verifyMcpInstallation
    have hk3' : k ≤ 3 := hk3
    interval_cases k
    · rw [show MCP_VERIFY_MAX_ATTEMPTS - 1 = 2 from rfl,
        runAttempts_success backend 1 2 tools hb hne]
      simp
    · rw [show MCP_VERIFY_MAX_ATTEMPTS - 1 = 1 + 1 from rfl,
        runAttempts_fail_step backend 1 1 (hfail 1 (by decide) (by decide)),
        runAttempts_success backend 2 1 tools hb hne]
      simp [List.range_succ]
    · rw [show MCP_VERIFY_MAX_ATTEMPTS - 1 = 1 + 1 from rfl,
        runAttempts_fail_step backend 1 1 (hfail 1 (by decide) (by decide)),
        runAttempts_fail_step backend 2 0 (hfail 2 (by decide) (by decide)),
        runAttempts_success backend 3 0 tools hb hne]
      simp [List.range_succ]

/-- Claim C2 witness: an always-failing backend yields exactly three
attempts, two 2000 ms waits, and one final `onFailed` with the last
error; a backend succeeding on attempt 2 stops there with one
`onVerified`. -/
theorem verifyPoller_retry_policy_witness :
    verifyMcpInstallation (fun _ => AttemptOutcome.failure "network error") =
      [VerifyEvent.verifying, VerifyEvent.attempt 1, VerifyEvent.wait 2000,
       VerifyEvent.attempt 2, VerifyEvent.wait 2000, VerifyEvent.attempt 3,
       VerifyEvent.failed "network error"] ∧
    verifyMcpInstallation
        (fun i => if i = 2 then AttemptOutcome.success ["a", "b"]
                  else AttemptOutcome.failure "down") =
      [VerifyEvent.verifying, VerifyEvent.attempt 1, VerifyEvent.wait 2000,
       VerifyEvent.attempt 2, VerifyEvent.verified ["a", "b"]] := by
  constructor
  · have h := (verifyPoller_retry_policy
      (fun _ => AttemptOutcome.failure "network error")).1
      (fun i _ _ => rfl)
    simpa using h
  · have h := (verifyPoller_retry_policy
      (fun i => if i = 2 then AttemptOutcome.success ["a", "b"]
                else AttemptOutcome.failure "down")).2
      2 ["a", "b"] (by decide) (by decide) (by simp) (by simp)
      (by intro i h1 h2; interval_cases i; rfl)
    simpa [List.range_succ] using h

/-! ## Chat opener lemmas -/

/-- Trace contributed by the optional context probe (step 2). -/
def trCtx : Option String → List ChatEffect
  | none => []
  | some key => [ChatEffect.getContext key]

lemma pastePhase_fst (delay : Nat) (env : ChatEnv) :
    (pastePhase delay env).1 = ⟨true, ChatMethod.clipboard, none⟩ := by
  unfold pastePhase
  split_ifs <;> rfl

lemma openPaste_fst (command prompt : String) (delayMs : Option Nat)
    (skipCtx : Option String) (env : ChatEnv) :
    (openChatWithClipboardPaste command prompt delayMs skipCtx env).1 =
      Except.error env.clipboardWriteErr ∨
    (openChatWithClipboardPaste command prompt delayMs skipCtx env).1 =
      Except.ok ⟨true, ChatMethod.clipboard, none⟩ := by
  unfold openChatWithClipboardPaste pastePhase
  split_ifs <;> simp

lemma dispatch_ok_success (cfg : ChatCommandConfig) (prompt : String) (et : Bool)
    (env : ChatEnv) (r : ChatOpenResult) (tr : List ChatEffect)
    (hd : dispatchChat cfg prompt et env = (.ok r, tr)) : r.success = true := by
  have hfst : (dispatchChat cfg prompt et env).1 = .ok r := by rw [hd]
  rcases hpf : cfg.paramFormat with _ | pf
  · simp only [dispatchChat, hpf] at hfst
    obtain rfl : (⟨true, ChatMethod.none, none⟩ : ChatOpenResult) = r :=
      by simpa using hfst
    rfl
  · cases pf with
    | object =>
        simp only [dispatchChat, hpf] at hfst
        by_cases ho : env.objectCmdOk
        · obtain rfl : (⟨true, ChatMethod.command, none⟩ : ChatOpenResult) = r :=
            by simpa [ho] using hfst
          rfl
        · simp [ho] at hfst
    | clipboard =>
        simp only [dispatchChat, hpf] at hfst
        rcases openPaste_fst (cfg.command.getD "") prompt cfg.pasteDelayMs
            cfg.skipCommandIfContext env with h | h
        · rw [h] at hfst; simp at hfst
        · rw [h] at hfst
          obtain rfl : (⟨true, ChatMethod.clipboard, none⟩ : ChatOpenResult) = r :=
            by simpa using hfst
          rfl
    | terminal =>
        simp only [dispatchChat, hpf, openChatWithTerminal] at hfst
        obtain rfl : (⟨true, ChatMethod.terminal, none⟩ : ChatOpenResult) = r :=
          by simpa using hfst
        rfl

lemma tryOpen_of_dispatch_ok (clientId prompt : String) (et : Bool) (env : ChatEnv)
    (cfg : ChatCommandConfig) (pf : ParamFormat) (r : ChatOpenResult)
    (tr : List ChatEffect)
    (hc : CHAT_COMMANDS clientId = some cfg) (hp : cfg.paramFormat = some pf)
    (hd : dispatchChat cfg prompt et env = (.ok r, tr)) :
    tryOpenChatWithPrompt clientId prompt et env = (r, tr) := by
  simp only [tryOpenChatWithPrompt, hc, hp, hd]

lemma tryOpen_of_dispatch_error (clientId prompt : String) (et : Bool) (env : ChatEnv)
    (cfg : ChatCommandConfig) (pf : ParamFormat) (e : String) (tr : List ChatEffect)
    (hc : CHAT_COMMANDS clientId = some cfg) (hp : cfg.paramFormat = some pf)
    (hd : dispatchChat cfg prompt et env = (.error e, tr)) :
    tryOpenChatWithPrompt clientId prompt et env = (⟨false, ChatMethod.none, some e⟩, tr) := by
  simp only [tryOpenChatWithPrompt, hc, hp, hd]

/-- Claim C6: for a client id unknown to the registry, or whose
configuration has no interaction strategy (`paramFormat` absent),
`tryOpenChatWithPrompt` returns `{success:true, method:'none'}` and its
effect trace is empty — no clipboard, command or terminal side effect. -/
theorem tryOpen_none_silent (clientId prompt : String) (et : Bool) (env : ChatEnv)
    (h : CHAT_COMMANDS clientId = none ∨
      ∃ cfg, CHAT_COMMANDS clientId = some cfg ∧ cfg.paramFormat = none) :
    tryOpenChatWithPrompt clientId prompt et env =
      (⟨true, ChatMethod.none, none⟩, []) := by
  rcases h with h | ⟨cfg, hc, hp⟩
  · simp only [tryOpenChatWithPrompt, h]
  · simp only [tryOpenChatWithPrompt, hc, hp]

/-- Claim C6 witness: the registered strategy-less client `cline` and
the unknown id `not-a-client` both yield the silent no-op result. -/
theorem tryOpen_none_silent_witness :
    tryOpenChatWithPrompt "cline" "hello" false ⟨true, "", none, true, true, true, ""⟩ =
      (⟨true, ChatMethod.none, none⟩, []) ∧
    tryOpenChatWithPrompt "not-a-client" "hello" false ⟨true, "", none, true, true, true, ""⟩ =
      (⟨true, ChatMethod.none, none⟩, []) := by
  constructor
  · exact tryOpen_none_silent "cline" "hello" false _
      (Or.inr ⟨⟨none, none, none, none, none⟩, by decide, rfl⟩)
  · exact tryOpen_none_silent "not-a-client" "hello" false _ (Or.inl (by decide))

/-- Claim C9: when the strategy dispatch raises (including a
clipboard-write failure), the outer catch converts it to
`{success:false, method:'none', error:String(error)}`; and on any true
failure the reported method is always `'none'`, never the technique
that was attempted. -/
theorem tryOpen_failure_is_none :
    (∀ (clientId prompt : String) (cfg : ChatCommandConfig) (pf : ParamFormat)
        (et : Bool) (env : ChatEnv) (e : String) (tr : List ChatEffect),
      CHAT_COMMANDS clientId = some cfg → cfg.paramFormat = some pf →
      dispatchChat cfg prompt et env = (.error e, tr) →
      tryOpenChatWithPrompt clientId prompt et env =
        (⟨false, ChatMethod.none, some e⟩, tr)) ∧
    (∀ (clientId prompt : String) (et : Bool) (env : ChatEnv),
      (tryOpenChatWithPrompt clientId prompt et env).1.success = false →
      (tryOpenChatWithPrompt clientId prompt et env).1.method = ChatMethod.none) := by
  constructor
  · intro clientId prompt cfg pf et env e tr hc hp hd
    exact tryOpen_of_dispatch_error clientId prompt et env cfg pf e tr hc hp hd
  · intro clientId prompt et env hfail
    rcases hc : CHAT_COMMANDS clientId with _ | cfg
    · simp only [tryOpenChatWithPrompt, hc] at hfail
      exact absurd hfail (by simp)
    · rcases hp : cfg.paramFormat with _ | pf
      · simp only [tryOpenChatWithPrompt, hc, hp] at hfail
        exact absurd hfail (by simp)
      · rcases hd : dispatchChat cfg prompt et env with ⟨e | r, tr⟩
        · have := tryOpen_of_dispatch_error clientId prompt et env cfg pf e tr hc hp hd
          rw [this]
        · have := tryOpen_of_dispatch_ok clientId prompt et env cfg pf r tr hc hp hd
          rw [this] at hfail
          exact absurd hfail
            (by simp [dispatch_ok_success cfg prompt et env r tr hd])

/-- Claim C9 witness: a clipboard-write failure for the
`ClipboardPaste` client `trae` escapes dispatch and is converted to a
true failure with method `'none'` carrying the stringified error. -/
theorem tryOpen_failure_is_none_witness :
    tryOpenChatWithPrompt "trae" "p" false ⟨false, "clipboard broken", none, true, true, true, ""⟩ =
      (⟨false, ChatMethod.none, some "clipboard broken"⟩, []) ∧
    (tryOpenChatWithPrompt "trae" "p" false
        ⟨false, "clipboard broken", none, true, true, true, ""⟩).1.method =
      ChatMethod.none := by
  refine ⟨tryOpen_failure_is_none.1 "trae" "p"
      ⟨some .clipboard, some "workbench.action.chat.icube.open", none, none, none⟩
      ParamFormat.clipboard false
      ⟨false, "clipboard broken", none, true, true, true, ""⟩
      "clipboard broken" [] (by decide) rfl rfl, ?_⟩
  exact tryOpen_failure_is_none.2 "trae" "p" false
    ⟨false, "clipboard broken", none, true, true, true, ""⟩ (by decide)

lemma tryOpen_snd (clientId prompt : String) (et : Bool) (env : ChatEnv)
    (cfg : ChatCommandConfig) (pf : ParamFormat)
    (hc : CHAT_COMMANDS clientId = some cfg) (hp : cfg.paramFormat = some pf) :
    (tryOpenChatWithPrompt clientId prompt et env).2 =
      (dispatchChat cfg prompt et env).2 := by
  rcases hd : dispatchChat cfg prompt et env with ⟨e | r, tr⟩
  · rw [tryOpen_of_dispatch_error clientId prompt et env cfg pf e tr hc hp hd]
  · rw [tryOpen_of_dispatch_ok clientId prompt et env cfg pf r tr hc hp hd]

lemma openPaste_openFail (command prompt : String) (delayMs : Option Nat)
    (skipCtx : Option String) (env : ChatEnv) (hw : env.clipboardWriteOk = true)
    (hsk : shouldSkipOpen skipCtx env = false) (ho : env.openCmdOk = false) :
    openChatWithClipboardPaste command prompt delayMs skipCtx env =
      (.ok ⟨true, ChatMethod.clipboard, none⟩,
       ChatEffect.clipboardWrite prompt :: trCtx skipCtx ++
         [ChatEffect.execCommand command, ChatEffect.notify openNotifyMsg]) := by
  unfold openChatWithClipboardPaste
  cases skipCtx with
  | none => simp [shouldSkipOpen, hw, ho, trCtx]
  | some key =>
      simp only [shouldSkipOpen] at hsk
      have hsk' : ¬ env.contextValue = some true := by simpa using hsk
      simp [shouldSkipOpen, hw, hsk', ho, trCtx]

lemma openPaste_pasteFail (command prompt : String) (delayMs : Option Nat)
    (skipCtx : Option String) (env : ChatEnv) (hw : env.clipboardWriteOk = true)
    (hsk : shouldSkipOpen skipCtx env = false) (ho : env.openCmdOk = true)
    (hpa : env.pasteOk = false) :
    openChatWithClipboardPaste command prompt delayMs skipCtx env =
      (.ok ⟨true, ChatMethod.clipboard, none⟩,
       ChatEffect.clipboardWrite prompt :: trCtx skipCtx ++
         [ChatEffect.execCommand command,
          ChatEffect.wait (delayMs.getD DEFAULT_PASTE_DELAY_MS), ChatEffect.pasteCmd,
          ChatEffect.notify pasteNotifyMsg]) := by
  unfold openChatWithClipboardPaste pastePhase
  cases skipCtx with
  | none => simp [shouldSkipOpen, hw, ho, hpa, trCtx]
  | some key =>
      simp only [shouldSkipOpen] at hsk
      have hsk' : ¬ env.contextValue = some true := by simpa using hsk
      simp [shouldSkipOpen, hw, hsk', ho, hpa, trCtx]

/-- Claim C4: for a `ClipboardPaste` client, failure of the open-chat
command alone stops the flow with `{success:true, method:'clipboard'}`
and a manual-paste notification — the paste command is never attempted
— and failure of the subsequent paste command likewise still yields
`{success:true, method:'clipboard'}` (with its own notification):
degraded success, not failure. -/
theorem clipboardPaste_degraded_success (clientId prompt : String)
    (cfg : ChatCommandConfig) (et : Bool) (env : ChatEnv)
    (hc : CHAT_COMMANDS clientId = some cfg)
    (hp : cfg.paramFormat = some ParamFormat.clipboard)
    (hw : env.clipboardWriteOk = true)
    (hsk : shouldSkipOpen cfg.skipCommandIfContext env = false) :
    (env.openCmdOk = false →
      (tryOpenChatWithPrompt clientId prompt et env).1 =
        ⟨true, ChatMethod.clipboard, none⟩ ∧
      ChatEffect.notify openNotifyMsg ∈ (tryOpenChatWithPrompt clientId prompt et env).2 ∧
      ChatEffect.pasteCmd ∉ (tryOpenChatWithPrompt clientId prompt et env).2) ∧
    (env.openCmdOk = true → env.pasteOk = false →
      (tryOpenChatWithPrompt clientId prompt et env).1 =
        ⟨true, ChatMethod.clipboard, none⟩ ∧
      ChatEffect.notify pasteNotifyMsg ∈ (tryOpenChatWithPrompt clientId prompt et env).2) := by
  constructor
  · intro ho
    have hd : dispatchChat cfg prompt et env =
        (.ok ⟨true, ChatMethod.clipboard, none⟩,
         ChatEffect.clipboardWrite prompt :: trCtx cfg.skipCommandIfContext ++
           [ChatEffect.execCommand (cfg.command.getD ""),
            ChatEffect.notify openNotifyMsg]) := by
      simp only [dispatchChat, hp]
      exact openPaste_openFail _ prompt _ _ env hw hsk ho
    rw [tryOpen_of_dispatch_ok clientId prompt et env cfg ParamFormat.clipboard _ _ hc hp hd]
    refine ⟨rfl, ?_, ?_⟩
    · cases cfg.skipCommandIfContext <;> simp [trCtx]
    · cases cfg.skipCommandIfContext <;> simp [trCtx]
  · intro ho hpa
    have hd : dispatchChat cfg prompt et env =
        (.ok ⟨true, ChatMethod.clipboard, none⟩,
         ChatEffect.clipboardWrite prompt :: trCtx cfg.skipCommandIfContext ++
           [ChatEffect.execCommand (cfg.command.getD ""),
            ChatEffect.wait (cfg.pasteDelayMs.getD DEFAULT_PASTE_DELAY_MS),
            ChatEffect.pasteCmd, ChatEffect.notify pasteNotifyMsg]) := by
      simp only [dispatchChat, hp]
      exact openPaste_pasteFail _ prompt _ _ env hw hsk ho hpa
    rw [tryOpen_of_dispatch_ok clientId prompt et env cfg ParamFormat.clipboard _ _ hc hp hd]
    refine ⟨rfl, ?_⟩
    cases cfg.skipCommandIfContext <;> simp [trCtx]

/-- Claim C4 witness: for the `ClipboardPaste` client `windsurf`, a
failing open-chat command still yields `{success:true,
method:'clipboard'}` with the manual-paste notification and no paste
attempt, and a failing paste command also yields `{success:true,
method:'clipboard'}`. -/
theorem clipboardPaste_degraded_success_witness :
    ((tryOpenChatWithPrompt "windsurf" "p" false
        ⟨true, "", none, false, true, true, ""⟩).1 =
      ⟨true, ChatMethod.clipboard, none⟩ ∧
     ChatEffect.notify openNotifyMsg ∈
       (tryOpenChatWithPrompt "windsurf" "p" false ⟨true, "", none, false, true, true, ""⟩).2 ∧
     ChatEffect.pasteCmd ∉
       (tryOpenChatWithPrompt "windsurf" "p" false ⟨true, "", none, false, true, true, ""⟩).2) ∧
    ((tryOpenChatWithPrompt "windsurf" "p" false
        ⟨true, "", none, true, false, true, ""⟩).1 =
      ⟨true, ChatMethod.clipboard, none⟩ ∧
     ChatEffect.notify pasteNotifyMsg ∈
       (tryOpenChatWithPrompt "windsurf" "p" false ⟨true, "", none, true, false, true, ""⟩).2) := by
  constructor
  · exact (clipboardPaste_degraded_success "windsurf" "p"
      ⟨some .clipboard, some "windsurf.prioritized.chat.openNewConversation", none, none, none⟩
      false ⟨true, "", none, false, true, true, ""⟩
      (by decide) rfl rfl rfl).1 rfl
  · exact (clipboardPaste_degraded_success "windsurf" "p"
      ⟨some .clipboard, some "windsurf.prioritized.chat.openNewConversation", none, none, none⟩
      false ⟨true, "", none, true, false, true, ""⟩
      (by decide) rfl rfl rfl).2 rfl rfl

lemma clipboardAfter_openPaste (command prompt : String) (delayMs : Option Nat)
    (skipCtx : Option String) (env : ChatEnv) (hw : env.clipboardWriteOk = true) :
    clipboardAfter (openChatWithClipboardPaste command prompt delayMs skipCtx env).2 =
      some prompt := by
  unfold openChatWithClipboardPaste pastePhase
  cases skipCtx <;>
    simp only [hw, if_true] <;>
      split_ifs <;>
        simp [clipboardAfter]

/-- Claim C5: for every `ClipboardPaste` client and prompt, when the
clipboard write itself succeeds, the clipboard content after
`tryOpenChatWithPrompt` equals the prompt passed in, regardless of
whether the open-chat or paste commands succeed. -/
theorem clipboard_content_eq_prompt (clientId prompt : String)
    (cfg : ChatCommandConfig) (et : Bool) (env : ChatEnv)
    (hc : CHAT_COMMANDS clientId = some cfg)
    (hp : cfg.paramFormat = some ParamFormat.clipboard)
    (hw : env.clipboardWriteOk = true) :
    clipboardAfter (tryOpenChatWithPrompt clientId prompt et env).2 = some prompt := by
  rw [tryOpen_snd clientId prompt et env cfg ParamFormat.clipboard hc hp]
  simp only [dispatchChat, hp]
  exact clipboardAfter_openPaste _ prompt _ _ env hw

/-- Claim C5 witness: for the `ClipboardPaste` client `kiro` with both
the open-chat and paste commands failing, the clipboard still holds the
prompt afterwards. -/
theorem clipboard_content_eq_prompt_witness :
    clipboardAfter (tryOpenChatWithPrompt "kiro" "the prompt" false
      ⟨true, "", none, false, false, true, ""⟩).2 = some "the prompt" :=
  clipboard_content_eq_prompt "kiro" "the prompt"
    ⟨some .clipboard, some "kiroAgent.focusContinueInput", none, some 1000, none⟩
    false ⟨true, "", none, false, false, true, ""⟩ (by decide) rfl rfl

/-- Claim C7: the `TerminalSend` strategy escapes each double quote of
the prompt to `\"`, alters no other character (the escape map is the
identity on every non-quote character), embeds the result as
`<terminalCommand> "<escaped>"` — e.g. `say "hi"` becomes
`say \"hi\"` — and always resolves
`{success:true, method:'terminal'}`. -/
theorem terminal_prompt_escaping :
    (∀ l : List Char, escapeQuotes l =
      l.flatMap fun c => if c = '"' then ['\\', '"'] else [c]) ∧
    escapeQuotesStr "say \"hi\"" = "say \\\"hi\\\"" ∧
    (∀ (clientId prompt : String) (cfg : ChatCommandConfig) (et : Bool) (env : ChatEnv),
      CHAT_COMMANDS clientId = some cfg →
      cfg.paramFormat = some ParamFormat.terminal →
      (tryOpenChatWithPrompt clientId prompt et env).1 =
        ⟨true, ChatMethod.terminal, none⟩ ∧
      ChatEffect.terminalSend
          (cfg.terminalCommand.getD "" ++ " \"" ++ escapeQuotesStr prompt ++ "\"")
        ∈ (tryOpenChatWithPrompt clientId prompt et env).2) := by
  refine ⟨?_, rfl, ?_⟩
  · intro l
    induction l with
    | nil => rfl
    | cons c rest ih => by_cases h : c = '"' <;> simp [escapeQuotes, h, ih]
  · intro clientId prompt cfg et env hc hp
    have hd : dispatchChat cfg prompt et env =
        (.ok ⟨true, ChatMethod.terminal, none⟩,
         (if et then []
          else [ChatEffect.createTerminal ("InsForge - " ++ cfg.terminalCommand.getD "")]) ++
           [ChatEffect.terminalShow,
            ChatEffect.terminalSend
              (cfg.terminalCommand.getD "" ++ " \"" ++ escapeQuotesStr prompt ++ "\"")]) := by
      simp only [dispatchChat, hp, openChatWithTerminal]
    rw [tryOpen_of_dispatch_ok clientId prompt et env cfg ParamFormat.terminal _ _ hc hp hd]
    exact ⟨rfl, by cases et <;> simp⟩

/-- Claim C7 witness: for the terminal client `claude-code` and the
prompt `say "hi"`, the opener resolves `{success:true,
method:'terminal'}` and sends `claude "say \"hi\""` to the terminal. -/
theorem terminal_prompt_escaping_witness :
    (tryOpenChatWithPrompt "claude-code" "say \"hi\"" true
        ⟨true, "", none, true, true, true, ""⟩).1 =
      ⟨true, ChatMethod.terminal, none⟩ ∧
    ChatEffect.terminalSend "claude \"say \\\"hi\\\"\"" ∈
      (tryOpenChatWithPrompt "claude-code" "say \"hi\"" true
        ⟨true, "", none, true, true, true, ""⟩).2 := by
  have h := terminal_prompt_escaping.2.2 "claude-code" "say \"hi\""
    ⟨some .terminal, none, some "claude", none, none⟩ true
    ⟨true, "", none, true, true, true, ""⟩ (by decide) rfl
  exact ⟨h.1, h.2⟩

/-! ## Orchestrator theorems -/

/-- A failing-installer run for the `cursor` client: client picked, no
project-local workspace needed, API key present, installer exits 1. -/
def envC1 : InstallEnv :=
  ⟨some ⟨"cursor", "Cursor", "Cursor IDE (~/.cursor/mcp.json)", false, "cursor"⟩,
   [], none, "/home/user", some "key",
   ⟨false, some 1, "", "", none⟩,
   fun _ => .failure "unreachable",
   ⟨true, "", none, true, true, true, ""⟩⟩

/-- Claim C1 counterexample: a run whose installer fails (exit code 1)
nonetheless marks the verifying status — `onVerifying` is invoked even
though the installer did not complete successfully, refuting the claim
that the Verifying state is entered only after installer success. -/
theorem verifying_before_install_counterexample :
    envC1.installerResult.success = false ∧
    McpEvent.statusVerifying "proj1" ∈ (installMcp "proj1" envC1).2 := by
  constructor
  · rfl
  · decide

/-- Claim C1 (amended): in every `installMcp` run that reaches the
install step (client picked, workspace resolved, API key obtained),
`onVerifying` is invoked immediately after the base URL is built and
**before** the installer runs — so every such run marks the verifying
status, including runs whose installer subsequently fails. -/
theorem verifying_marked_before_installer (projectId : String) (env : InstallEnv)
    (client : McpClient) (hc : env.clientPick = some client)
    (hw : resolveWorkspace client env ≠ none) (hk : env.apiKey ≠ none) :
    ∃ tail, (installMcp projectId env).2 =
      McpEvent.installationStarting :: McpEvent.statusVerifying projectId ::
        McpEvent.installerRun :: McpEvent.terminalCreated :: tail := by
  rcases hrw : resolveWorkspace client env with _ | w
  · exact absurd hrw hw
  rcases hak : env.apiKey with _ | key
  · exact absurd hak hk
  simp only [installMcp, hc, hrw, hak]
  by_cases hs : env.installerResult.success
  · rw [if_pos hs]
    exact ⟨_, rfl⟩
  · rw [if_neg hs]
    exact ⟨_, rfl⟩

/-- Claim C1 (amended) witness: the failing-installer run `envC1` still
has the verifying mark before the installer event. -/
theorem verifying_marked_before_installer_witness :
    ∃ tail, (installMcp "proj1" envC1).2 =
      McpEvent.installationStarting :: McpEvent.statusVerifying "proj1" ::
        McpEvent.installerRun :: McpEvent.terminalCreated :: tail :=
  verifying_marked_before_installer "proj1" envC1
    ⟨"cursor", "Cursor", "Cursor IDE (~/.cursor/mcp.json)", false, "cursor"⟩
    rfl (by decide) (by decide)

/-- A successful-installer run for the `cursor` client whose
verification backend always fails. -/
def envC10 : InstallEnv :=
  ⟨some ⟨"cursor", "Cursor", "Cursor IDE (~/.cursor/mcp.json)", false, "cursor"⟩,
   [], none, "/home/user", some "key",
   ⟨true, some 0, "installed", "", none⟩,
   fun _ => .failure "server down",
   ⟨true, "", none, true, true, true, ""⟩⟩

/-- Same run but with a verification backend that succeeds at once. -/
def envC10v : InstallEnv :=
  ⟨some ⟨"cursor", "Cursor", "Cursor IDE (~/.cursor/mcp.json)", false, "cursor"⟩,
   [], none, "/home/user", some "key",
   ⟨true, some 0, "installed", "", none⟩,
   fun _ => .success ["tool-a", "tool-b"],
   ⟨true, "", none, true, true, true, ""⟩⟩

/-- Claim C10: whenever the installer succeeds, `installMcp` resolves
`true`, for every environment — hence for every verification backend
behaviour and every chat-opening outcome, since both are part of the
universally quantified environment: the verification hand-off is
fire-and-forget (`verificationScheduled` appears in the trace) and the
returned boolean never reflects verification or chat-opening results. -/
theorem installMcp_true_on_installer_success (projectId : String) (env : InstallEnv)
    (client : McpClient) (hc : env.clientPick = some client)
    (hw : resolveWorkspace client env ≠ none) (hk : env.apiKey ≠ none)
    (hs : env.installerResult.success = true) :
    (installMcp projectId env).1 = true ∧
    McpEvent.verificationScheduled ∈ (installMcp projectId env).2 := by
  rcases hrw : resolveWorkspace client env with _ | w
  · exact absurd hrw hw
  rcases hak : env.apiKey with _ | key
  · exact absurd hak hk
  simp only [installMcp, hc, hrw, hak]
  rw [if_pos hs]
  exact ⟨rfl, by simp⟩

/-- Claim C10 witness: with the installer succeeding, `installMcp`
returns `true` both when verification later fails (`envC10`) and when
it later succeeds (`envC10v`). -/
theorem installMcp_true_on_installer_success_witness :
    (installMcp "proj1" envC10).1 = true ∧
    (installMcp "proj1" envC10v).1 = true :=
  ⟨(installMcp_true_on_installer_success "proj1" envC10
      ⟨"cursor", "Cursor", "Cursor IDE (~/.cursor/mcp.json)", false, "cursor"⟩
      rfl (by decide) (by decide) rfl).1,
   (installMcp_true_on_installer_success "proj1" envC10v
      ⟨"cursor", "Cursor", "Cursor IDE (~/.cursor/mcp.json)", false, "cursor"⟩
      rfl (by decide) (by decide) rfl).1⟩

end InsForge
